import Mathlib

/-!
Shallow embedding of the NAC registration backend (Strapi v1 controllers):
`saveDraftAndCreateOrder`, `verifyPaymentAndPublish`, `webhookHandler`
(src/api/v1/controllers/v1.ts, first controller variant) and `bulkUpload`
(src/api/v1/controllers/bulk-upload.ts), together with the pieces of the
v1 service layer they call (`addUserAddons` argument validation).

External collaborators (content store, Razorpay, Cosmic Kids API, ZeptoMail)
are modelled at their interface: the content store is an explicit list of
student records threaded through each handler, and remote calls are oracles
(`Except`-valued parameters) whose thrown errors are caught by the
controllers' catch-all blocks exactly as in the source.
-/

namespace NacBe

/-- JavaScript `String.prototype.startsWith`-style comparison on char lists. -/
def leadMatches : List Char → List Char → Bool
  | [], _ => true
  | _ :: _, [] => false
  | a :: as, b :: bs => (a = b) && leadMatches as bs

/-- Substring containment on char lists, used to model `description.includes(..)`. -/
def hasSubList (needle : List Char) : List Char → Bool
  | [] => leadMatches needle []
  | b :: bs => leadMatches needle (b :: bs) || hasSubList needle bs

/-- JavaScript `hay.includes(needle)`. -/
def strIncludes (hay needle : String) : Bool :=
  hasSubList needle.toList hay.toList

/-- JavaScript `s.trim()`: strip leading and trailing whitespace. -/
def strTrim (s : String) : String :=
  ⟨((s.data.dropWhile Char.isWhitespace).reverse.dropWhile Char.isWhitespace).reverse⟩

/-- JavaScript `s.toLowerCase()`. -/
def strLower (s : String) : String :=
  ⟨s.data.map Char.toLower⟩

/-- `payment_status` values stored on a student record. -/
inductive PaymentStatus
  | pending
  | completed
  | failed
deriving DecidableEq, Repr

/-- A selected add-on as sent by the client: id, title, overseas price (`price`)
and domestic price (`priceInr`). -/
structure Addon where
  id : String
  title : String
  price : Int
  priceInr : Int
deriving DecidableEq, Repr

/-- A student registration record in the content store.  Money fields are in
integer minor units; `Option` marks fields a record may not have yet.
`published` models the draft/published visibility toggled by `.publish`. -/
structure Student where
  documentId : Nat
  createdAt : Nat
  name : String
  email : String
  phone : String
  dob : String
  school_name : String
  grade : String
  «section» : String
  city : String
  is_overseas : Bool
  selected_addon : Option Addon
  order_amount : Option Int
  order_currency : String
  razorpay_order_id : Option String
  payment_id : Option String
  payment_status : PaymentStatus
  payment_method : Option String
  payment_verified_at : Option Nat
  payment_captured_at : Option Nat
  publishedAt : Option Nat
  published : Bool
  mail_sent : Bool
  wa_sent : Bool
deriving DecidableEq, Repr

/-- The content store is the list of student records, in creation order. -/
abbrev Store := List Student

/-- `strapi.documents(..).findMany({filters: {email}})`. -/
def findByEmail (store : Store) (email : String) : List Student :=
  store.filter (fun s => s.email = email)

/-- `strapi.documents(..).findOne({documentId})`. -/
def findOne (store : Store) (docId : Nat) : Option Student :=
  store.find? (fun s => s.documentId = docId)

/-- `strapi.documents(..).update({documentId, data})`: apply `f` to every
record with the given document id. -/
def updateStudent (store : Store) (docId : Nat) (f : Student → Student) : Store :=
  store.map (fun s => if s.documentId = docId then f s else s)

/-- `strapi.documents(..).publish({documentId})`. -/
def publishStudent (store : Store) (docId : Nat) : Store :=
  updateStudent store docId (fun s => { s with published := true })

/-- The `reduce` in `saveDraftAndCreateOrder` picking the registration with the
latest `createdAt` (strictly-greater keeps the earlier element on ties). -/
def latestByCreatedAt (l : List Student) : Option Student :=
  l.foldl
    (fun latest curr =>
      match latest with
      | none => some curr
      | some s => if curr.createdAt > s.createdAt then some curr else some s)
    none

/-- Add-on contribution to the total: `selectedAddon ? (is_overseas ?
selectedAddon.price : selectedAddon.priceInr) : 0`. -/
def addonAmount (isOverseas : Bool) : Option Addon → Int
  | some a => if isOverseas then a.price else a.priceInr
  | none => 0

/-- The minor-unit order amount stored on a draft:
`(registrationFee + addonAmount) * 100`.  No tax factor appears anywhere. -/
def orderAmountOf (registrationFee : Int) (isOverseas : Bool) (ad : Option Addon) : Int :=
  (registrationFee + addonAmount isOverseas ad) * 100

/-- The hardcoded fee `verifyPaymentAndPublish` expects:
`student.is_overseas ? 12 : 500`. -/
def expectedRegistrationFee (isOverseas : Bool) : Int :=
  if isOverseas then 12 else 500

/-- `(expectedRegistrationFee + expectedAddonAmount) * 100` from
`verifyPaymentAndPublish`. -/
def expectedTotalAmount (isOverseas : Bool) (ad : Option Addon) : Int :=
  (expectedRegistrationFee isOverseas + addonAmount isOverseas ad) * 100

/-- `addon_id === "credits" ? 35 : addon_id === "basic" ? 240 : 315` —
the credit count attached to an addon grant (webhook and bulk upload). -/
def creditsForAddonId (id : String) : Int :=
  if id = "credits" then 35 else if id = "basic" then 240 else 315

/-- `getWhatsAppTemplate` from bulk-upload.ts; the empty string stands for a
null/absent addon id (`templateMap[null]` is undefined, yielding the default). -/
def getWhatsAppTemplate (addon_id : String) : String :=
  if addon_id = "credits" then "nac_spacetopia_cre"
  else if addon_id = "basic" then "nac_spacetopia_protostar"
  else if addon_id = "premium" then "nac_spacetopia_supernova"
  else "nac_spacetopia_no_cre"

/-- The `addUserAddons` service argument validation
(`!userId || !addons.type || !addons.amount || !addons.credits` throw) in
front of the remote call `grantCall`. -/
def addUserAddonsService (grantCall : Except String Unit) (userId : Nat)
    (ty : String) (amount : Rat) (credits : Int) : Except String Unit :=
  if userId = 0 then .error "UserId and addons are required"
  else if ty = "" ∨ amount = 0 ∨ credits = 0 then
    .error "Addon type, amount, and credits are required"
  else grantCall

/-- The `data` object of a draft-creation request body. -/
structure RegData where
  name : String
  email : String
  phone : String
  dob : String
  school_name : String
  grade : String
  «section» : String
  city : String
  is_overseas : Bool
deriving DecidableEq, Repr

/-- The required-field validation of `saveDraftAndCreateOrder`; the empty
string models a missing/empty field (both fail the source's check). -/
def requiredPresent (d : RegData) : Bool :=
  d.name ≠ "" && d.email ≠ "" && d.phone ≠ "" && d.dob ≠ "" &&
  d.school_name ≠ "" && d.grade ≠ "" && d.«section» ≠ "" && d.city ≠ ""

/-- The request `razorpay.orders.create` is sent (amount, currency, receipt,
and the notes carrying the correlation id and addon info). -/
structure OrderRequest where
  amount : Int
  currency : String
  receipt : String
  notesDocId : Nat
  notesAddonId : Option String
deriving DecidableEq, Repr

/-- Result of a `saveDraftAndCreateOrder` call: the success payload echoes the
gateway order (id, amount, currency), `alreadyExists` is the
`{success:false, message:'Registration already exists'}` early return, and
`thrown` models `ctx.throw`. -/
inductive DraftResult
  | success (orderId : String) (orderAmount : Int) (currency : String)
  | alreadyExists
  | thrown (status : Nat) (msg : String)
deriving DecidableEq, Repr

/-- Full outcome of `saveDraftAndCreateOrder`: result, resulting store, the
gateway order request (if one was made), and the created draft (if any, as
returned to the client, i.e. before the order-id update). -/
structure DraftOutput where
  result : DraftResult
  store : Store
  orderRequest : Option OrderRequest
  created : Option Student
deriving DecidableEq, Repr

/-- The draft student record `saveDraftAndCreateOrder` creates. -/
def mkDraftStudent (data : RegData) (selectedAddon : Option Addon)
    (totalAmount : Int) (newDocId : Nat) (now : Nat) : Student :=
  { documentId := newDocId, createdAt := now,
    name := data.name, email := data.email, phone := data.phone,
    dob := data.dob, school_name := data.school_name, grade := data.grade,
    «section» := data.«section», city := data.city,
    is_overseas := data.is_overseas,
    selected_addon := selectedAddon,
    order_amount := some (totalAmount * 100),
    order_currency := if data.is_overseas then "USD" else "INR",
    razorpay_order_id := none, payment_id := none,
    payment_status := .pending, payment_method := none,
    payment_verified_at := none, payment_captured_at := none,
    publishedAt := none, published := false,
    mail_sent := false, wa_sent := false }

/-- Continuation of `saveDraftAndCreateOrder` after the completed-registration
guard: stale-pending cleanup, draft creation, gateway order, order-id
update. -/
def saveDraftCont (store : Store) (data : RegData) (selectedAddon : Option Addon)
    (totalAmount : Int) (newDocId : Nat) (now : Nat) (orderId : String)
    (deletePending : Bool) : DraftOutput :=
  let store1 :=
    if deletePending then
      store.filter (fun s => ¬(s.email = data.email ∧ s.payment_status = .pending))
    else store
  let cur := if data.is_overseas then "USD" else "INR"
  let student : Student := mkDraftStudent data selectedAddon totalAmount newDocId now
  let store2 := store1 ++ [student]
  let req : OrderRequest :=
    { amount := 100,
      currency := cur,
      receipt := "student_" ++ toString newDocId,
      notesDocId := newDocId,
      notesAddonId := selectedAddon.map (fun a => a.id) }
  let store3 := updateStudent store2 newDocId
    (fun s => { s with razorpay_order_id := some orderId,
                       order_amount := some (totalAmount * 100),
                       order_currency := cur })
  ⟨.success orderId 100 cur, store3, some req, some student⟩

/-- `saveDraftAndCreateOrder` (controllers/v1.ts, first variant).  `newDocId`
is the document id the store assigns to the created draft, `now` the
creation timestamp, `orderId` the id Razorpay returns; the gateway call is
assumed to succeed, echoing the requested amount/currency.  Note the source
passes the literal `amount: 100` to `razorpay.orders.create` while storing
`order_amount = totalAmount * 100` on the student. -/
def saveDraftAndCreateOrder (store : Store) (dataOpt : Option RegData)
    (selectedAddon : Option Addon) (registrationFee : Int)
    (newDocId : Nat) (now : Nat) (orderId : String) : DraftOutput :=
  match dataOpt with
  | none => ⟨.thrown 400 "Missing data in request body", store, none, none⟩
  | some data =>
    if ¬ requiredPresent data then
      ⟨.thrown 400 "Missing required fields", store, none, none⟩
    else
      let totalAmount := registrationFee + addonAmount data.is_overseas selectedAddon
      let existing := findByEmail store data.email
      let registration := latestByCreatedAt existing
      match registration with
      | some r =>
        if r.payment_status = .completed then
          ⟨.alreadyExists, store, none, none⟩
        else
          saveDraftCont store data selectedAddon totalAmount newDocId now orderId
            (r.payment_status = .pending)
      | none =>
        saveDraftCont store data selectedAddon totalAmount newDocId now orderId false

/-- Request body of `verifyPaymentAndPublish`; the empty string models a
missing string parameter (falsy either way). -/
structure VerifyInput where
  razorpay_payment_id : String
  razorpay_order_id : String
  razorpay_signature : String
  student_document_id : Option Nat
  selectedAddon : Option Addon
deriving DecidableEq, Repr

/-- Result of `verifyPaymentAndPublish`. -/
inductive VerifyResult
  | success
  | thrown (status : Nat) (msg : String)
deriving DecidableEq, Repr

/-- `verifyPaymentAndPublish` (controllers/v1.ts, first variant).  `hmac`
abstracts `crypto.createHmac('sha256', KEY_SECRET).update(text).digest('hex')`
as a deterministic function of the signed text. -/
def verifyPaymentAndPublish (hmac : String → String) (store : Store)
    (inp : VerifyInput) (now : Nat) : VerifyResult × Store :=
  if inp.razorpay_payment_id = "" ∨ inp.razorpay_order_id = "" ∨
     inp.razorpay_signature = "" ∨ inp.student_document_id = none then
    (.thrown 400 "Missing required payment verification parameters", store)
  else if hmac (inp.razorpay_order_id ++ "|" ++ inp.razorpay_payment_id)
            ≠ inp.razorpay_signature then
    (.thrown 400 "Invalid payment signature", store)
  else
    match inp.student_document_id.bind (findOne store) with
    | none => (.thrown 404 "Student not found", store)
    | some s =>
      if s.order_amount ≠ some (expectedTotalAmount s.is_overseas inp.selectedAddon) then
        (.thrown 400 "Order amount mismatch", store)
      else
        (.success,
         updateStudent store s.documentId
           (fun t => { t with payment_status := .completed,
                              selected_addon := inp.selectedAddon,
                              payment_id := some inp.razorpay_payment_id,
                              publishedAt := some now,
                              payment_verified_at := some now }))

/-- The `notes` object of a Razorpay payment entity; `student_document_id`
is the correlation id written at order creation. -/
structure WebhookNotes where
  student_document_id : Option Nat
deriving DecidableEq, Repr

/-- `body.payload.payment.entity`; only the fields the handler reads.
`Option` fields model properties the provider may omit. -/
structure PaymentEntity where
  id : String
  method : String
  amount : Int
  description : Option String
  notes : Option WebhookNotes
deriving DecidableEq, Repr

/-- `body.payload.payment`. -/
structure PaymentWrap where
  entity : Option PaymentEntity
deriving DecidableEq, Repr

/-- `body.payload`. -/
structure WebhookPayload where
  payment : Option PaymentWrap
deriving DecidableEq, Repr

/-- The parsed webhook request body. -/
structure WebhookBody where
  event : String
  payload : Option WebhookPayload
deriving DecidableEq, Repr

/-- Oracle for the external systems the webhook handler calls.
`isRegistered` models `isEmailRegisteredInCosmicKids` (`some uid` when the
email is registered), `createAccount` gives the `.id` read off the
`createCosmicKidsAccount` response (which may be absent), `mailBatch` the
`message` of the `sendZeptoMailBatch` response, and `grantAddons` the remote
half of `addUserAddons`; `.error` means the service threw. -/
structure ExtWorld where
  isRegistered : String → Except String (Option Nat)
  createAccount : String → Except String (Option Nat)
  mailBatch : Except String String
  grantAddons : Except String Unit

/-- One submitted addon-credit grant (`addonsPayload`). -/
structure Grant where
  userId : Nat
  ty : String
  amount : Rat
  credits : Int
deriving DecidableEq, Repr

/-- Observable side effects of one webhook invocation on the external
systems: accounts created (by email), successful mail batches, and credit
grants submitted. -/
structure WebhookEffects where
  accountsCreated : List String := []
  mailBatches : Nat := 0
  grants : List Grant := []
deriving DecidableEq, Repr

/-- Result of a webhook call.  `thrown` models the catch-all
`ctx.throw(err.status || 200, ..)`; thrown TypeErrors from property access on
undefined carry the fixed message "TypeError". -/
inductive WebhookOutcome
  | success (msg : String)
  | thrown (status : Nat) (msg : String)
deriving DecidableEq, Repr

/-- The `data` of the webhook's payment-detail update on the student. -/
def capturedUpdate (payment : PaymentEntity) (now : Nat) (mailSent : Bool)
    (t : Student) : Student :=
  { t with payment_id := some payment.id,
           payment_status := .completed,
           payment_method := some payment.method,
           publishedAt := some now,
           payment_verified_at := some now,
           payment_captured_at := some now,
           mail_sent := mailSent }

/-- Shared tail of both provisioning branches of the webhook handler: the
payment-detail update, the publish call, and the conditional addon grant
(`if (user_id && addon_id)`). -/
def webhookFulfil (ext : ExtWorld) (now : Nat) (payment : PaymentEntity)
    (s : Student) (store : Store) (uidOpt : Option Nat)
    (addon_id : Option String) (mail_sent : Bool) (eff : WebhookEffects) :
    WebhookOutcome × Store × WebhookEffects :=
  let store1 := updateStudent store s.documentId (capturedUpdate payment now mail_sent)
  let store2 := publishStudent store1 s.documentId
  match uidOpt, addon_id with
  | some uid, some aid =>
    if uid ≠ 0 then
      match addUserAddonsService ext.grantAddons uid aid
          (Rat.divInt payment.amount 100) (creditsForAddonId aid) with
      | .error e => (.thrown 200 e, store2, eff)
      | .ok _ =>
        (.success "Webhook processed successfully", store2,
         { eff with grants := eff.grants ++
             [⟨uid, aid, Rat.divInt payment.amount 100, creditsForAddonId aid⟩] })
    else (.success "Webhook processed successfully", store2, eff)
  | _, _ => (.success "Webhook processed successfully", store2, eff)

/-- `webhookHandler` (controllers/v1.ts, first variant).  Mirrors the
JavaScript evaluation order: `body.payload.payment.entity` is dereferenced
before the event check (TypeError if `payload` or `payment` is absent), and
`payment.description.includes('NAC25')` is only evaluated when the event
matches (TypeError if the entity or its description is absent). -/
def webhookHandler (ext : ExtWorld) (now : Nat) (body : WebhookBody)
    (store : Store) : WebhookOutcome × Store × WebhookEffects :=
  match body.payload with
  | none => (.thrown 200 "TypeError", store, {})
  | some payload =>
    match payload.payment with
    | none => (.thrown 200 "TypeError", store, {})
    | some pw =>
      if body.event = "payment.captured" then
        match pw.entity with
        | none => (.thrown 200 "TypeError", store, {})
        | some payment =>
          match payment.description with
          | none => (.thrown 200 "TypeError", store, {})
          | some desc =>
            if strIncludes desc "NAC25" then
              match payment.notes with
              | none => (.thrown 200 "TypeError", store, {})
              | some nts =>
                match nts.student_document_id.bind (findOne store) with
                | none => (.success "Webhook processed successfully", store, {})
                | some s =>
                  let addon_id : Option String :=
                    match s.selected_addon with
                    | some a => if a.id = "" then none else some a.id
                    | none => none
                  match ext.isRegistered s.email with
                  | .error e => (.thrown 200 e, store, {})
                  | .ok (some uid) =>
                    match ext.mailBatch with
                    | .error e => (.thrown 200 e, store, {})
                    | .ok msg =>
                      webhookFulfil ext now payment s store (some uid) addon_id
                        (msg = "OK") { mailBatches := 1 }
                  | .ok none =>
                    match ext.createAccount s.email with
                    | .error e => (.thrown 200 e, store, {})
                    | .ok idOpt =>
                      match ext.mailBatch with
                      | .error e =>
                        (.thrown 200 e, store, { accountsCreated := [s.email] })
                      | .ok msg =>
                        webhookFulfil ext now payment s store idOpt addon_id
                          (msg = "OK")
                          { accountsCreated := [s.email], mailBatches := 1 }
            else (.success "Invalid payment description", store, {})
      else (.success "Invalid payment description", store, {})

/-- Combine the effects of successive webhook invocations. -/
def mergeEffects (a b : WebhookEffects) : WebhookEffects :=
  { accountsCreated := a.accountsCreated ++ b.accountsCreated,
    mailBatches := a.mailBatches + b.mailBatches,
    grants := a.grants ++ b.grants }

/-- Replay the identical webhook request `n` times, threading the store and
accumulating external side effects. -/
def webhookIterate (ext : ExtWorld) (now : Nat) (body : WebhookBody) :
    Store → Nat → Store × WebhookEffects
  | store, 0 => (store, {})
  | store, n + 1 =>
    let r := webhookHandler ext now body store
    let rest := webhookIterate ext now body r.2.1 n
    (rest.1, mergeEffects r.2.2 rest.2)

/-- One parsed CSV row (`columns: true` gives every row every header key;
the empty string models an empty or absent cell, both falsy). -/
structure Row where
  name : String
  email : String
  phone : String
  school : String
  grade : String
  «section» : String
  payment_id : String
  is_overseas : String
  addon_id : String
  addon_title : String
  dob : String
  city : String
deriving DecidableEq, Repr

/-- `row.is_overseas?.toLowerCase() === 'true' || row.is_overseas === '1' ||
row.is_overseas === 'yes'`. -/
def bulkIsOverseas (row : Row) : Bool :=
  strLower row.is_overseas = "true" || row.is_overseas = "1" || row.is_overseas = "yes"

/-- A student with every field empty/default, used as the base for the
create branch of the bulk upsert. -/
def emptyStudent : Student :=
  { documentId := 0, createdAt := 0, name := "", email := "", phone := "",
    dob := "", school_name := "", grade := "", «section» := "", city := "",
    is_overseas := false, selected_addon := none, order_amount := none,
    order_currency := "", razorpay_order_id := none, payment_id := none,
    payment_status := .pending, payment_method := none,
    payment_verified_at := none, payment_captured_at := none,
    publishedAt := none, published := false, mail_sent := false,
    wa_sent := false }

/-- The `studentData` object a bulk row writes (applied to the existing
record on update, to `emptyStudent` on create).  Fields not present in
`studentData` (notably `order_amount` and, when the row has no addon,
`selected_addon`, `dob`, `city`) are preserved.  The bulk addon object only
carries id and title, so its price fields are zero. -/
def applyBulkData (now : Nat) (row : Row) (t : Student) : Student :=
  { t with
    name := strTrim row.name,
    email := strLower (strTrim row.email),
    phone := strTrim row.phone,
    school_name := strTrim row.school,
    grade := strTrim row.grade,
    «section» := strTrim row.«section»,
    is_overseas := bulkIsOverseas row,
    payment_id := some (strTrim row.payment_id),
    payment_status := .completed,
    publishedAt := some now,
    payment_verified_at := some now,
    payment_captured_at := some now,
    payment_method := some "bulk_upload",
    mail_sent := false,
    wa_sent := false,
    dob := if row.dob ≠ "" then strTrim row.dob else t.dob,
    city := if row.city ≠ "" then strTrim row.city else t.city,
    selected_addon :=
      if row.addon_id ≠ "" then
        some ⟨strTrim row.addon_id,
              if row.addon_title ≠ "" then strTrim row.addon_title
              else strTrim row.addon_id, 0, 0⟩
      else t.selected_addon }

/-- Oracle for one bulk row's external calls: the fresh document id a create
would use, the Cosmic Kids lookup, account creation, the post-creation
re-lookup, and the addon grant. -/
structure RowExt where
  freshId : Nat
  isRegistered : Except String (Option Nat)
  createAcct : Except String Unit
  recheck : Except String (Option Nat)
  grant : Except String Unit

/-- The crediting step shared by both provisioning branches of a bulk row:
`if (user_id && addon_id)` submit the grant with `paymentAmount` derived
from the (possibly absent) `order_amount`. -/
def bulkGrantStep (re : RowExt) (stu : Student) (store2 : Store)
    (uidOpt : Option Nat) (addon_id : Option String) : Except String Store :=
  match uidOpt, addon_id with
  | some uid, some aid =>
    if uid ≠ 0 then
      let amt : Rat :=
        match stu.order_amount with
        | some v => if v = 0 then 0 else Rat.divInt v 100
        | none => 0
      match addUserAddonsService re.grant uid aid amt (creditsForAddonId aid) with
      | .error e => .error e
      | .ok _ => .ok store2
    else .ok store2
  | _, _ => .ok store2

/-- Processing of one bulk row inside its try/catch: validation, upsert by
email, publish, Cosmic Kids provisioning, conditional addon grant.
`.error` is the caught per-row failure carrying `error.message`.  The
`setImmediate` background notification task is not part of the row's
try/catch and does not affect the row outcome; it is not modelled. -/
def processRow (re : RowExt) (now : Nat) (store : Store) (row : Row) :
    Except String Store :=
  if row.name = "" ∨ row.email = "" ∨ row.phone = "" ∨ row.school = "" ∨
     row.grade = "" ∨ row.«section» = "" ∨ row.payment_id = "" then
    .error "Missing required fields in row"
  else
    let existing := findByEmail store (strLower (strTrim row.email))
    let upsert : Store × Student :=
      match existing with
      | [] =>
        let s := { applyBulkData now row emptyStudent with
                     documentId := re.freshId, createdAt := now }
        (store ++ [s], s)
      | e :: _ =>
        (updateStudent store e.documentId (applyBulkData now row),
         applyBulkData now row e)
    let stu := upsert.2
    let store2 := publishStudent upsert.1 stu.documentId
    let addon_id : Option String :=
      if row.addon_id ≠ "" then some row.addon_id
      else stu.selected_addon.bind (fun a => if a.id = "" then none else some a.id)
    match re.isRegistered with
    | .error e => .error e
    | .ok (some uid) => bulkGrantStep re stu store2 (some uid) addon_id
    | .ok none =>
      match re.createAcct with
      | .error e => .error e
      | .ok _ =>
        match re.recheck with
        | .error e => .error e
        | .ok uidOpt => bulkGrantStep re stu store2 uidOpt addon_id

/-- One entry of `results.errors`. -/
structure BulkErr where
  row : Nat
  email : String
  error : String
deriving DecidableEq, Repr

/-- The aggregate `results` object of a bulk upload. -/
structure BulkResults where
  total : Nat
  successful : Nat
  failed : Nat
  errors : List BulkErr
deriving DecidableEq, Repr

/-- The row loop of `bulkUpload`: `i` is the 0-based row index, so a failed
row is recorded with row number `i + 2` (header line plus 1-indexing); on a
caught failure the store writes of later rows still proceed from the last
good store. -/
def bulkLoop (ext : Nat → RowExt) (now : Nat) :
    Nat → Store → List Row → Store × Nat × Nat × List BulkErr
  | _, store, [] => (store, 0, 0, [])
  | i, store, row :: rest =>
    match processRow (ext i) now store row with
    | .ok store1 =>
      let r := bulkLoop ext now (i + 1) store1 rest
      (r.1, r.2.1 + 1, r.2.2.1, r.2.2.2)
    | .error msg =>
      let r := bulkLoop ext now (i + 1) store rest
      (r.1, r.2.1, r.2.2.1 + 1,
       ⟨i + 2, if row.email = "" then "N/A" else row.email, msg⟩ :: r.2.2.2)

/-- `bulkUpload` from the `results` initialisation onward (the preceding
file/column plumbing is not claim-relevant): processes every parsed row and
returns the aggregate results plus the final store. -/
def bulkUpload (ext : Nat → RowExt) (now : Nat) (store : Store)
    (rows : List Row) : BulkResults × Store :=
  let r := bulkLoop ext now 0 store rows
  (⟨rows.length, r.2.1, r.2.2.1, r.2.2.2⟩, r.1)

/-! ## Helper lemmas and shared fixtures -/

theorem findOne_updateStudent (store : Store) (d : Nat) (f : Student → Student)
    (hf : ∀ t, (f t).documentId = t.documentId) :
    findOne (updateStudent store d f) d = (findOne store d).map f := by
  induction store with
  | nil => rfl
  | cons h t ih =>
    by_cases hd : h.documentId = d
    · simp [findOne, updateStudent, List.find?_cons, hd, hf]
    · simp only [findOne, updateStudent, List.map_cons, List.find?_cons] at *
      rw [if_neg hd]
      simp only [hd, decide_eq_false_iff_not] at *
      exact ih

theorem findOne_publishStudent (store : Store) (d : Nat) :
    findOne (publishStudent store d) d =
      (findOne store d).map (fun s => { s with published := true }) :=
  findOne_updateStudent store d _ (fun _ => rfl)

theorem findOne_documentId (store : Store) (d : Nat) (s : Student)
    (h : findOne store d = some s) : s.documentId = d := by
  have hp := List.find?_some h
  exact of_decide_eq_true hp

theorem creditsForAddonId_ne_zero (id : String) : creditsForAddonId id ≠ 0 := by
  unfold creditsForAddonId
  split_ifs <;> norm_num

/-- Core fact about `verifyPaymentAndPublish`: with present parameters, a
valid signature and a resolvable student whose stored `order_amount` differs
from the recomputed expected amount, the call throws 400 "Order amount
mismatch" and leaves the store unchanged. -/
theorem verifyMismatch_spec (hmac : String → String) (store : Store)
    (inp : VerifyInput) (now : Nat) (s : Student) (docId : Nat)
    (hp : inp.razorpay_payment_id ≠ "")
    (ho : inp.razorpay_order_id ≠ "")
    (hs0 : inp.razorpay_signature ≠ "")
    (hid : inp.student_document_id = some docId)
    (hsig : hmac (inp.razorpay_order_id ++ "|" ++ inp.razorpay_payment_id)
              = inp.razorpay_signature)
    (hfind : findOne store docId = some s)
    (hmis : s.order_amount ≠ some (expectedTotalAmount s.is_overseas inp.selectedAddon)) :
    verifyPaymentAndPublish hmac store inp now =
      (.thrown 400 "Order amount mismatch", store) := by
  simp only [verifyPaymentAndPublish, hp, ho, hs0, hid, hsig, Option.some_bind, hfind]
  simp [hmis]

/-- A "credits"-tier add-on priced 750 INR / 10 USD, the running example of
the spec's numerical scenarios. -/
def addonCredits : Addon := ⟨"credits", "Credits Pack", 10, 750⟩

/-- A valid domestic registration `data` object. -/
def dataA : RegData :=
  { name := "A", email := "a@x.com", phone := "1", dob := "2010-01-01",
    school_name := "S", grade := "5", «section» := "B", city := "C",
    is_overseas := false }

/-- An external world in which every remote call succeeds: the email is
registered under user 42, account creation returns id 7, mail responds
"OK", the grant call succeeds. -/
def extAllOk : ExtWorld :=
  { isRegistered := fun _ => .ok (some 42),
    createAccount := fun _ => .ok (some 7),
    mailBatch := .ok "OK",
    grantAddons := .ok () }

/-- A fixed HMAC oracle for concrete verification scenarios. -/
def hmacFix : String → String := fun _ => "sig"

/-- A domestic student holding the credits add-on with stored
`order_amount = t`. -/
def stuTampered (t : Int) : Student :=
  { emptyStudent with
    documentId := 1,
    email := "a@x.com",
    selected_addon := some addonCredits,
    order_amount := some t }

/-- A verification request for `stuTampered` whose signature matches
`hmacFix`. -/
def inpTampered : VerifyInput := ⟨"p", "o", "sig", some 1, some addonCredits⟩

/-! ## C4 -/

/-- C4: the claim says the gateway order is created with the computed
minor-unit amount stored as `order_amount`.  Evaluating the code at fee 500
and the 750-INR add-on: the student stores `order_amount = 125000`, but the
request sent to `razorpay.orders.create` carries the hardcoded literal
amount 100 (and the client response echoes 100) — the computed `orderAmount`
variable is never passed to the gateway.  The currency half of the claim
(INR since not overseas) does hold. -/
theorem draft_gateway_order_amount_hardcoded :
    (saveDraftAndCreateOrder [] (some dataA) (some addonCredits) 500 1 0 "order_1").orderRequest =
      some ⟨100, "INR", "student_1", 1, some "credits"⟩ ∧
    ((saveDraftAndCreateOrder [] (some dataA) (some addonCredits) 500 1 0 "order_1").created.map
      (fun s => s.order_amount)) = some (some 125000) ∧
    (100 : Int) ≠ 125000 ∧
    (saveDraftAndCreateOrder [] (some dataA) (some addonCredits) 500 1 0 "order_1").result =
      .success "order_1" 100 "INR" := by
  refine ⟨by decide, by decide, by decide, by decide⟩

/-! ## C5 -/

/-- C5 counterexample: the claim says the domestic amount for fee 500 and
add-on price 750 is `(500+750)*1.18` minor units, rounded.  The code applies
no tax: the computed amount is `(500+750)*100 = 125000` minor units, which
is neither `147500` (1.18 on the subtotal, then minor units) nor `1475`
(1.18 in minor units directly). -/
theorem domestic_amount_no_tax_cex :
    orderAmountOf 500 false (some addonCredits) = 125000 ∧
    (125000 : Int) ≠ 147500 ∧ (125000 : Int) ≠ 1475 := by
  refine ⟨by decide, by decide, by decide⟩

/-- C5 (amended): no tax is applied — for overseas=false, fee 500 and add-on
price 750 the computed order amount is `(500+750)*100` minor units; and
client-side verification of a registration whose stored amount was tampered
to any value other than 125000 rejects with "Order amount mismatch" without
touching the store. -/
theorem domestic_amount_and_tamper_reject (t : Int) (ht : t ≠ 125000) :
    orderAmountOf 500 false (some addonCredits) = (500 + 750) * 100 ∧
    verifyPaymentAndPublish hmacFix [stuTampered t] inpTampered 0 =
      (.thrown 400 "Order amount mismatch", [stuTampered t]) := by
  constructor
  · decide
  · refine verifyMismatch_spec hmacFix [stuTampered t] inpTampered 0 (stuTampered t) 1
      (by decide) (by decide) (by decide) rfl rfl rfl ?_
    have h125 : expectedTotalAmount false (some addonCredits) = 125000 := by decide
    show (stuTampered t).order_amount ≠ some (expectedTotalAmount false (some addonCredits))
    rw [h125]
    simpa [stuTampered, emptyStudent] using ht

/-- C5 witness: the amended theorem applied at the tampered amount 0. -/
theorem domestic_amount_and_tamper_reject_witness :
    orderAmountOf 500 false (some addonCredits) = (500 + 750) * 100 ∧
    verifyPaymentAndPublish hmacFix [stuTampered 0] inpTampered 0 =
      (.thrown 400 "Order amount mismatch", [stuTampered 0]) :=
  domestic_amount_and_tamper_reject 0 (by decide)

/-! ## C6 -/

/-- An older completed registration for `dataA`'s email. -/
def sC6old : Student :=
  { emptyStudent with
    documentId := 1, createdAt := 1, email := "a@x.com",
    payment_status := .completed }

/-- A newer pending registration for the same email. -/
def sC6new : Student :=
  { emptyStudent with
    documentId := 2, createdAt := 2, email := "a@x.com",
    payment_status := .pending }

/-- Store with a completed registration shadowed by a newer pending one. -/
def storeC6 : Store := [sC6old, sC6new]

/-- C6 counterexample: the claim says a draft request is rejected for every
email for which a completed registration exists.  With a completed
registration (createdAt 1) shadowed by a newer pending one (createdAt 2) for
the same email, the endpoint succeeds and creates a new record (document id
3 exists afterwards), because the guard only inspects the most recent
registration by `createdAt`. -/
theorem draft_dedup_latest_only_cex :
    sC6old ∈ storeC6 ∧ sC6old.payment_status = .completed ∧
    sC6old.email = dataA.email ∧
    (saveDraftAndCreateOrder storeC6 (some dataA) none 500 3 9 "ord_2").result =
      .success "ord_2" 100 "INR" ∧
    findOne (saveDraftAndCreateOrder storeC6 (some dataA) none 500 3 9 "ord_2").store 3 ≠
      none := by
  refine ⟨by decide, by decide, by decide, by decide, by decide⟩

/-- C6 (amended): when the most recent registration for the email (latest by
`createdAt`) has `payment_status = completed`, the draft endpoint returns the
`{success:false}` early return, creates no record, sends no gateway order and
leaves the store unchanged. -/
theorem draft_rejects_when_latest_completed (store : Store) (data : RegData)
    (ad : Option Addon) (fee : Int) (newDocId now : Nat) (orderId : String)
    (r : Student)
    (hv : requiredPresent data = true)
    (hlat : latestByCreatedAt (findByEmail store data.email) = some r)
    (hc : r.payment_status = .completed) :
    saveDraftAndCreateOrder store (some data) ad fee newDocId now orderId =
      ⟨.alreadyExists, store, none, none⟩ := by
  simp [saveDraftAndCreateOrder, hv, hlat, hc]

/-- C6 witness: the amended theorem applied to a store whose only (hence
latest) registration for the email is completed. -/
theorem draft_rejects_when_latest_completed_witness :
    saveDraftAndCreateOrder [sC6old] (some dataA) none 500 3 9 "ord_2" =
      ⟨.alreadyExists, [sC6old], none, none⟩ :=
  draft_rejects_when_latest_completed [sC6old] dataA none 500 3 9 "ord_2" sC6old
    (by decide) (by decide) (by decide)

/-! ## C7 -/

/-- An add-on with an id outside the three known tiers. -/
def addonGold : Addon := ⟨"gold", "Gold", 5, 999⟩

/-- A pending student holding the unknown-tier add-on. -/
def stuGold : Student :=
  { emptyStudent with
    documentId := 1, email := "g@x.com", selected_addon := some addonGold,
    payment_status := .pending }

/-- A NAC25 payment-captured body targeting `stuGold`. -/
def bodyGold : WebhookBody :=
  ⟨"payment.captured",
   some ⟨some ⟨some ⟨"pay_g", "card", 99900, some "NAC25 order", some ⟨some 1⟩⟩⟩⟩⟩

/-- A student with no selected add-on. -/
def stuPlain : Student :=
  { emptyStudent with documentId := 7, email := "p@x.com" }

/-- C7 counterexample: the claim says an unknown add-on id grants 0 credits
and crediting is skipped.  The code's conditional expression assigns 315
credits to every id other than "credits" and "basic", and the webhook does
submit a grant for the unknown id "gold" (with 315 credits); only the
messaging-template fallback behaves as claimed. -/
theorem unknown_addon_gets_premium_credits_cex :
    creditsForAddonId "gold" = 315 ∧ creditsForAddonId "gold" ≠ 0 ∧
    (webhookHandler extAllOk 0 bodyGold [stuGold]).2.2.grants =
      [⟨42, "gold", Rat.divInt 99900 100, 315⟩] ∧
    getWhatsAppTemplate "gold" = "nac_spacetopia_no_cre" := by
  refine ⟨by decide, by decide, by decide, by decide⟩

/-- C7 (amended): "credits" maps to 35 credits, "basic" to 240, and every
other id — "premium" or unknown — to 315; the WhatsApp template map sends
the three known tiers to their templates and everything else to the default;
and crediting is skipped only when no add-on id is present (a resolved
student with `selected_addon` absent produces no grant). -/
theorem addon_tier_mapping :
    creditsForAddonId "credits" = 35 ∧ creditsForAddonId "basic" = 240 ∧
    creditsForAddonId "premium" = 315 ∧
    (∀ id, id ≠ "credits" → id ≠ "basic" → creditsForAddonId id = 315) ∧
    getWhatsAppTemplate "credits" = "nac_spacetopia_cre" ∧
    getWhatsAppTemplate "basic" = "nac_spacetopia_protostar" ∧
    getWhatsAppTemplate "premium" = "nac_spacetopia_supernova" ∧
    (∀ id, id ≠ "credits" → id ≠ "basic" → id ≠ "premium" →
      getWhatsAppTemplate id = "nac_spacetopia_no_cre") ∧
    (∀ (ext : ExtWorld) (now : Nat) (pid mth : String) (amt : Int) (desc : String)
       (docId : Nat) (store : Store) (s : Student) (uid : Nat) (msg : String),
      strIncludes desc "NAC25" = true →
      findOne store docId = some s → s.selected_addon = none →
      ext.isRegistered s.email = .ok (some uid) → ext.mailBatch = .ok msg →
      (webhookHandler ext now
        ⟨"payment.captured",
         some ⟨some ⟨some ⟨pid, mth, amt, some desc, some ⟨some docId⟩⟩⟩⟩⟩
        store).2.2.grants = []) := by
  refine ⟨by decide, by decide, by decide, ?_, by decide, by decide, by decide, ?_, ?_⟩
  · intro id h1 h2
    unfold creditsForAddonId
    rw [if_neg h1, if_neg h2]
  · intro id h1 h2 h3
    unfold getWhatsAppTemplate
    rw [if_neg h1, if_neg h2, if_neg h3]
  · intro ext now pid mth amt desc docId store s uid msg hdesc hfind haddon hreg hmail
    simp only [webhookHandler, hdesc, Option.some_bind, hfind, haddon, hreg, hmail,
      webhookFulfil]
    simp

/-- C7 witness: the amended theorem applied to the unknown id "xyz" and to a
resolved registration with no add-on (no grant is submitted). -/
theorem addon_tier_mapping_witness :
    creditsForAddonId "xyz" = 315 ∧
    getWhatsAppTemplate "xyz" = "nac_spacetopia_no_cre" ∧
    (webhookHandler extAllOk 3
      ⟨"payment.captured",
       some ⟨some ⟨some ⟨"pw", "upi", 50000, some "NAC25", some ⟨some 7⟩⟩⟩⟩⟩
      [stuPlain]).2.2.grants = [] := by
  obtain ⟨-, -, -, h4, -, -, -, h8, h9⟩ := addon_tier_mapping
  exact ⟨h4 "xyz" (by decide) (by decide),
         h8 "xyz" (by decide) (by decide) (by decide),
         h9 extAllOk 3 "pw" "upi" 50000 "NAC25" 7 [stuPlain] stuPlain 42 "OK"
           (by decide) (by decide) rfl rfl rfl⟩

/-! ## C3 -/

/-- A pending student whose stored order amount is 125000. -/
def stuMismatch : Student :=
  { emptyStudent with
    documentId := 1, email := "m@x.com", selected_addon := some addonCredits,
    order_amount := some 125000, payment_status := .pending }

/-- A NAC25 payment-captured body whose captured amount (1) disagrees with
the stored order amount (125000). -/
def bodyMismatch : WebhookBody :=
  ⟨"payment.captured",
   some ⟨some ⟨some ⟨"pay_m", "card", 1, some "NAC25 reg", some ⟨some 1⟩⟩⟩⟩⟩

/-- C3 counterexample: the claim says the payment-captured handler recomputes
the expected amount, rejects on mismatch, marks the registration REJECTED and
performs no provisioning/crediting/notification.  The webhook handler never
compares amounts: with a captured amount of 1 against a stored order amount
of 125000 it still reports success, submits a credit grant, sends mail, and
marks the registration completed (no REJECTED state exists in the code). -/
theorem webhook_ignores_amount_mismatch_cex :
    stuMismatch.order_amount = some 125000 ∧ (1 : Int) ≠ 125000 ∧
    (webhookHandler extAllOk 2 bodyMismatch [stuMismatch]).1 =
      .success "Webhook processed successfully" ∧
    (webhookHandler extAllOk 2 bodyMismatch [stuMismatch]).2.2.grants ≠ [] ∧
    (webhookHandler extAllOk 2 bodyMismatch [stuMismatch]).2.2.mailBatches = 1 ∧
    (findOne (webhookHandler extAllOk 2 bodyMismatch [stuMismatch]).2.1 1).map
      (fun t => t.payment_status) = some .completed := by
  refine ⟨by decide, by decide, by decide, by decide, by decide, by decide⟩

/-- C3 (amended): the amount recomputation lives only in the client-side
`verifyPaymentAndPublish` path: there, with a valid signature and a resolved
student, a stored amount differing from the recomputed expected amount makes
the call throw 400 "Order amount mismatch" with the store left unchanged (no
registration is updated; no REJECTED status exists). -/
theorem verify_amount_mismatch_rejects_no_update (hmac : String → String)
    (store : Store) (inp : VerifyInput) (now : Nat) (s : Student) (docId : Nat)
    (hp : inp.razorpay_payment_id ≠ "")
    (ho : inp.razorpay_order_id ≠ "")
    (hs0 : inp.razorpay_signature ≠ "")
    (hid : inp.student_document_id = some docId)
    (hsig : hmac (inp.razorpay_order_id ++ "|" ++ inp.razorpay_payment_id)
              = inp.razorpay_signature)
    (hfind : findOne store docId = some s)
    (hmis : s.order_amount ≠ some (expectedTotalAmount s.is_overseas inp.selectedAddon)) :
    verifyPaymentAndPublish hmac store inp now =
      (.thrown 400 "Order amount mismatch", store) :=
  verifyMismatch_spec hmac store inp now s docId hp ho hs0 hid hsig hfind hmis

/-- C3 witness: the amended theorem applied to a concrete tampered student. -/
theorem verify_amount_mismatch_rejects_no_update_witness :
    verifyPaymentAndPublish hmacFix [stuTampered 7] inpTampered 4 =
      (.thrown 400 "Order amount mismatch", [stuTampered 7]) :=
  verify_amount_mismatch_rejects_no_update hmacFix [stuTampered 7] inpTampered 4
    (stuTampered 7) 1 (by decide) (by decide) (by decide) rfl rfl rfl (by decide)

/-! ## C2 -/

/-- A completed registration survives the create-and-cleanup continuation of
draft creation untouched: it is not removed by the stale-pending filter and
not hit by the order-id update when the new document id is fresh. -/
theorem completed_mem_saveDraftCont (store : Store) (data : RegData)
    (ad : Option Addon) (total : Int) (newDocId now : Nat) (orderId : String)
    (dp : Bool) (s : Student)
    (hfresh : s.documentId ≠ newDocId)
    (hs : s ∈ store) (hc : s.payment_status = .completed) :
    s ∈ (saveDraftCont store data ad total newDocId now orderId dp).store := by
  unfold saveDraftCont updateStudent
  refine List.mem_map.mpr ⟨s, ?_, ?_⟩
  · refine List.mem_append_left _ ?_
    cases dp with
    | false => simpa using hs
    | true =>
      refine List.mem_filter.mpr ⟨hs, ?_⟩
      simp [hc]
  · rw [if_neg hfresh]

/-- A completed registration with all payment fields populated. -/
def stuDone : Student :=
  { emptyStudent with
    documentId := 1, email := "d@x.com", selected_addon := some addonCredits,
    order_amount := some 125000, payment_status := .completed,
    payment_id := some "pay_old", payment_method := some "card",
    publishedAt := some 1, payment_verified_at := some 1,
    payment_captured_at := some 1 }

/-- A NAC25 payment-captured body re-delivered for `stuDone`. -/
def bodyDone : WebhookBody :=
  ⟨"payment.captured",
   some ⟨some ⟨some ⟨"pay_new2", "upi", 125000, some "NAC25 x", some ⟨some 1⟩⟩⟩⟩⟩

/-- C2 counterexample: the claim says every operation leaves a completed
registration's payment fields unchanged.  The webhook handler, lacking any
completed-status guard, overwrites them: a completed registration with
`payment_id = "pay_old"` ends up with `payment_id = "pay_new2"` and a fresh
`payment_verified_at` after a re-delivered captured event. -/
theorem completed_payment_fields_overwritten_cex :
    stuDone.payment_status = .completed ∧
    stuDone.payment_id = some "pay_old" ∧
    (findOne (webhookHandler extAllOk 9 bodyDone [stuDone]).2.1 1).map
      (fun t => t.payment_id) = some (some "pay_new2") ∧
    (findOne (webhookHandler extAllOk 9 bodyDone [stuDone]).2.1 1).map
      (fun t => t.payment_verified_at) = some (some 9) ∧
    (some "pay_new2" : Option String) ≠ some "pay_old" := by
  refine ⟨by decide, by decide, by decide, by decide, by decide⟩

/-- C2 (amended): only draft creation preserves a completed registration
untouched — any completed record in the store is still present, unchanged, in
the store after `saveDraftAndCreateOrder` (it is neither deleted by the
stale-pending cleanup nor updated, provided the fresh document id is indeed
fresh).  Client-side verification, webhook handling and bulk import do not
share this property: they overwrite payment fields of completed
registrations. -/
theorem completed_preserved_by_draft_creation (store : Store)
    (dataOpt : Option RegData) (ad : Option Addon) (fee : Int)
    (newDocId now : Nat) (orderId : String) (s : Student)
    (hfresh : ∀ t ∈ store, t.documentId ≠ newDocId)
    (hs : s ∈ store) (hc : s.payment_status = .completed) :
    s ∈ (saveDraftAndCreateOrder store dataOpt ad fee newDocId now orderId).store := by
  cases dataOpt with
  | none => exact hs
  | some data =>
    by_cases hv : requiredPresent data
    · cases hlat : latestByCreatedAt (findByEmail store data.email) with
      | none =>
        simp only [saveDraftAndCreateOrder, hv, hlat]
        simpa using completed_mem_saveDraftCont store data ad _ newDocId now orderId
          false s (hfresh s hs) hs hc
      | some r =>
        by_cases hrc : r.payment_status = .completed
        · simp only [saveDraftAndCreateOrder, hv, hlat, hrc]
          simpa using hs
        · simp only [saveDraftAndCreateOrder, hv, hlat]
          simp only [hrc]
          simpa using completed_mem_saveDraftCont store data ad _ newDocId now orderId
            (r.payment_status = .pending) s (hfresh s hs) hs hc
    · simp only [saveDraftAndCreateOrder]
      simp [hv]
      exact hs

/-- C2 witness: the amended theorem applied to a concrete completed
registration surviving a draft-creation call for another email. -/
theorem completed_preserved_by_draft_creation_witness :
    stuDone ∈ (saveDraftAndCreateOrder [stuDone] (some dataA) none 500 5 9 "o9").store :=
  completed_preserved_by_draft_creation [stuDone] (some dataA) none 500 5 9 "o9"
    stuDone (by decide) (by decide) (by decide)

/-! ## C10 -/

/-- Success of `verifyPaymentAndPublish` is equivalent to the stored
`order_amount` matching the recomputed expected amount (all other checks
passing). -/
theorem verifySuccess_iff (hmac : String → String) (store : Store)
    (inp : VerifyInput) (now : Nat) (s : Student) (docId : Nat)
    (hp : inp.razorpay_payment_id ≠ "")
    (ho : inp.razorpay_order_id ≠ "")
    (hs0 : inp.razorpay_signature ≠ "")
    (hid : inp.student_document_id = some docId)
    (hsig : hmac (inp.razorpay_order_id ++ "|" ++ inp.razorpay_payment_id)
              = inp.razorpay_signature)
    (hfind : findOne store docId = some s) :
    ((verifyPaymentAndPublish hmac store inp now).1 = .success ↔
      s.order_amount = some (expectedTotalAmount s.is_overseas inp.selectedAddon)) := by
  simp only [verifyPaymentAndPublish, hp, ho, hs0, hid, hsig, Option.some_bind, hfind]
  by_cases hC : s.order_amount = some (expectedTotalAmount s.is_overseas inp.selectedAddon)
  · simp [hC]
  · simp [hC]

/-- C10: the draft stores `order_amount = (registrationFee + addon price) *
100` with the client-supplied `registrationFee`, while verification
recomputes the expected total from the hardcoded fee (500 domestic / 12
overseas); on a freshly created draft, with the same addon selection and a
valid signature, verification succeeds exactly when the client-supplied fee
equals the hardcoded fee. -/
theorem draft_fee_vs_verify_hardcoded_fee (hmac : String → String)
    (data : RegData) (ad : Option Addon) (fee : Int) (newDocId dnow vnow : Nat)
    (orderId : String)
    (hv : requiredPresent data = true)
    (hhm : hmac ("o" ++ "|" ++ "p") ≠ "") :
    ∃ stu,
      (saveDraftAndCreateOrder [] (some data) ad fee newDocId dnow orderId).created =
        some stu ∧
      stu.order_amount = some (orderAmountOf fee data.is_overseas ad) ∧
      ((verifyPaymentAndPublish hmac [stu]
          ⟨"p", "o", hmac ("o" ++ "|" ++ "p"), some newDocId, ad⟩ vnow).1 = .success ↔
        fee = expectedRegistrationFee data.is_overseas) := by
  simp only [saveDraftAndCreateOrder, hv]
  simp only [findByEmail, List.filter_nil, latestByCreatedAt, List.foldl_nil]
  refine ⟨mkDraftStudent data ad (fee + addonAmount data.is_overseas ad) newDocId dnow,
    rfl, rfl, ?_⟩
  have hfind : findOne
      [mkDraftStudent data ad (fee + addonAmount data.is_overseas ad) newDocId dnow]
      newDocId =
      some (mkDraftStudent data ad (fee + addonAmount data.is_overseas ad) newDocId dnow) := by
    apply List.find?_cons_of_pos
    simp [mkDraftStudent]
  have hiff := verifySuccess_iff hmac _
    ⟨"p", "o", hmac ("o" ++ "|" ++ "p"), some newDocId, ad⟩ vnow _ newDocId
    (by simp) (by simp) hhm rfl rfl hfind
  rw [hiff]
  show some (orderAmountOf fee data.is_overseas ad) =
      some (expectedTotalAmount data.is_overseas ad) ↔
    fee = expectedRegistrationFee data.is_overseas
  simp only [Option.some.injEq, orderAmountOf, expectedTotalAmount]
  constructor
  · intro h
    omega
  · intro h
    rw [h]

/-- C10 witness: domestic draft with fee 500 and no add-on; 500 equals the
hardcoded domestic fee, so verification passes. -/
theorem draft_fee_vs_verify_hardcoded_fee_witness :
    ∃ stu,
      (saveDraftAndCreateOrder [] (some dataA) none 500 11 0 "oW").created = some stu ∧
      stu.order_amount = some (orderAmountOf 500 dataA.is_overseas none) ∧
      ((verifyPaymentAndPublish hmacFix [stu]
          ⟨"p", "o", hmacFix ("o" ++ "|" ++ "p"), some 11, none⟩ 0).1 = .success ↔
        (500 : Int) = expectedRegistrationFee dataA.is_overseas) :=
  draft_fee_vs_verify_hardcoded_fee hmacFix dataA none 500 11 0 0 "oW"
    (by decide) (by decide)

/-! ## C1 -/

/-- One webhook invocation on an authenticated NAC25 captured event that
resolves a registration with a selected add-on and a registered external
account: it reports success, updates and publishes the student, counts one
mail batch and submits exactly one credit grant — with no condition on the
student's current `payment_status`. -/
theorem webhookRun_spec (ext : ExtWorld) (now : Nat) (pid mth : String) (amt : Int)
    (desc : String) (docId : Nat) (store : Store) (s : Student) (a : Addon)
    (uid : Nat) (msg : String)
    (hdesc : strIncludes desc "NAC25" = true)
    (hfind : findOne store docId = some s)
    (haddon : s.selected_addon = some a)
    (haid : a.id ≠ "")
    (hreg : ext.isRegistered s.email = .ok (some uid))
    (huid : uid ≠ 0)
    (hmail : ext.mailBatch = .ok msg)
    (hgrant : ext.grantAddons = .ok ())
    (hamt : Rat.divInt amt 100 ≠ 0) :
    webhookHandler ext now
        ⟨"payment.captured", some ⟨some ⟨some ⟨pid, mth, amt, some desc, some ⟨some docId⟩⟩⟩⟩⟩
        store =
      (.success "Webhook processed successfully",
       publishStudent (updateStudent store s.documentId
         (capturedUpdate ⟨pid, mth, amt, some desc, some ⟨some docId⟩⟩ now (msg = "OK")))
         s.documentId,
       ⟨[], 1, [⟨uid, a.id, Rat.divInt amt 100, creditsForAddonId a.id⟩]⟩) := by
  simp only [webhookHandler, hdesc, if_true, Option.some_bind, hfind, haddon, hreg, hmail,
    webhookFulfil, addUserAddonsService, hgrant]
  simp [haid, huid, hamt, creditsForAddonId_ne_zero a.id]

/-- Replaying the same event `n` times yields `n` credit grants (the
registration resolved by the correlation id keeps its email and add-on across
the replays, so every replay re-enters the full fulfilment path). -/
theorem webhookIterate_grants (ext : ExtWorld) (now : Nat) (pid mth : String)
    (amt : Int) (desc : String) (docId : Nat) (a : Addon) (uid : Nat) (msg : String)
    (E : String)
    (hdesc : strIncludes desc "NAC25" = true)
    (haid : a.id ≠ "")
    (hreg : ext.isRegistered E = .ok (some uid))
    (huid : uid ≠ 0)
    (hmail : ext.mailBatch = .ok msg)
    (hgrant : ext.grantAddons = .ok ())
    (hamt : Rat.divInt amt 100 ≠ 0) :
    ∀ (n : Nat) (store : Store) (s : Student), findOne store docId = some s →
      s.email = E → s.selected_addon = some a →
      (webhookIterate ext now
        ⟨"payment.captured", some ⟨some ⟨some ⟨pid, mth, amt, some desc, some ⟨some docId⟩⟩⟩⟩⟩
        store n).2.grants.length = n := by
  intro n
  induction n with
  | zero => intro store s _ _ _; rfl
  | succ k ih =>
    intro store s hfind hemail haddon
    have hreg2 : ext.isRegistered s.email = .ok (some uid) := by rw [hemail]; exact hreg
    have hrun := webhookRun_spec ext now pid mth amt desc docId store s a uid msg
      hdesc hfind haddon haid hreg2 huid hmail hgrant hamt
    have hdoc : s.documentId = docId := findOne_documentId store docId s hfind
    simp only [webhookIterate, hrun]
    have hpres : ∀ t : Student,
        ((capturedUpdate ⟨pid, mth, amt, some desc, some ⟨some docId⟩⟩ now
          (msg = "OK")) t).documentId = t.documentId := fun t => rfl
    have h2 := findOne_updateStudent store docId
      (capturedUpdate ⟨pid, mth, amt, some desc, some ⟨some docId⟩⟩ now (msg = "OK")) hpres
    have hfind2 : findOne (publishStudent (updateStudent store s.documentId
        (capturedUpdate ⟨pid, mth, amt, some desc, some ⟨some docId⟩⟩ now (msg = "OK")))
        s.documentId) docId =
        some { (capturedUpdate ⟨pid, mth, amt, some desc, some ⟨some docId⟩⟩ now
                 (msg = "OK") s) with published := true } := by
      rw [hdoc, findOne_publishStudent, h2, hfind]
      rfl
    have hih := ih _ _ hfind2 hemail haddon
    simp [mergeEffects, hih]

/-- C1 counterexample: the claim says a registration whose `payment_status`
is already completed is not reprocessed, and that N replays produce exactly
one credited add-on.  On an already-completed registration a single delivery
still submits a credit grant and a mail batch, and three replays of the
identical event submit three credit grants, not one. -/
theorem webhook_idempotency_cex :
    stuDone.payment_status = .completed ∧
    (webhookHandler extAllOk 9 bodyDone [stuDone]).2.2.grants.length = 1 ∧
    (webhookHandler extAllOk 9 bodyDone [stuDone]).2.2.mailBatches = 1 ∧
    (webhookIterate extAllOk 9 bodyDone [stuDone] 3).2.grants.length = 3 ∧
    (3 : Nat) ≠ 1 := by
  refine ⟨by decide, by decide, by decide, by decide, by decide⟩

/-- C1 (amended): the webhook handler has no idempotency guard.  Every
delivery of an authenticated NAC25 captured event that resolves a
registration with a selected add-on and a registered nonzero external
account — regardless of the registration's current `payment_status`,
including `completed` — reports success, re-writes the payment fields,
counts a mail batch and submits a credit grant; N replays submit N grants. -/
theorem webhook_no_idempotency_guard (ext : ExtWorld) (now : Nat)
    (pid mth : String) (amt : Int) (desc : String) (docId : Nat) (store : Store)
    (s : Student) (a : Addon) (uid : Nat) (msg : String)
    (hdesc : strIncludes desc "NAC25" = true)
    (hfind : findOne store docId = some s)
    (haddon : s.selected_addon = some a)
    (haid : a.id ≠ "")
    (hreg : ext.isRegistered s.email = .ok (some uid))
    (huid : uid ≠ 0)
    (hmail : ext.mailBatch = .ok msg)
    (hgrant : ext.grantAddons = .ok ())
    (hamt : Rat.divInt amt 100 ≠ 0) :
    (webhookHandler ext now
        ⟨"payment.captured", some ⟨some ⟨some ⟨pid, mth, amt, some desc, some ⟨some docId⟩⟩⟩⟩⟩
        store).1 = .success "Webhook processed successfully" ∧
    (webhookHandler ext now
        ⟨"payment.captured", some ⟨some ⟨some ⟨pid, mth, amt, some desc, some ⟨some docId⟩⟩⟩⟩⟩
        store).2.2.grants.length = 1 ∧
    (webhookHandler ext now
        ⟨"payment.captured", some ⟨some ⟨some ⟨pid, mth, amt, some desc, some ⟨some docId⟩⟩⟩⟩⟩
        store).2.2.mailBatches = 1 ∧
    (findOne (webhookHandler ext now
        ⟨"payment.captured", some ⟨some ⟨some ⟨pid, mth, amt, some desc, some ⟨some docId⟩⟩⟩⟩⟩
        store).2.1 docId).map (fun t => t.payment_status) = some .completed ∧
    ∀ n, (webhookIterate ext now
        ⟨"payment.captured", some ⟨some ⟨some ⟨pid, mth, amt, some desc, some ⟨some docId⟩⟩⟩⟩⟩
        store n).2.grants.length = n := by
  have hrun := webhookRun_spec ext now pid mth amt desc docId store s a uid msg
    hdesc hfind haddon haid hreg huid hmail hgrant hamt
  have hdoc : s.documentId = docId := findOne_documentId store docId s hfind
  have hpres : ∀ t : Student,
      ((capturedUpdate ⟨pid, mth, amt, some desc, some ⟨some docId⟩⟩ now
        (msg = "OK")) t).documentId = t.documentId := fun t => rfl
  have h2 := findOne_updateStudent store docId
    (capturedUpdate ⟨pid, mth, amt, some desc, some ⟨some docId⟩⟩ now (msg = "OK")) hpres
  refine ⟨by rw [hrun], by simp [hrun], by simp [hrun], ?_, ?_⟩
  · rw [hrun]
    show (findOne (publishStudent (updateStudent store s.documentId
        (capturedUpdate ⟨pid, mth, amt, some desc, some ⟨some docId⟩⟩ now (msg = "OK")))
        s.documentId) docId).map (fun t => t.payment_status) = some .completed
    rw [hdoc, findOne_publishStudent, h2, hfind]
    rfl
  · intro n
    exact webhookIterate_grants ext now pid mth amt desc docId a uid msg s.email
      hdesc haid hreg huid hmail hgrant hamt n store s hfind rfl haddon

/-- C1 witness: the amended theorem applied to a concrete pending
registration holding the "gold" add-on. -/
theorem webhook_no_idempotency_guard_witness :
    (webhookHandler extAllOk 0 bodyGold [stuGold]).1 =
      .success "Webhook processed successfully" ∧
    (webhookHandler extAllOk 0 bodyGold [stuGold]).2.2.grants.length = 1 ∧
    (webhookHandler extAllOk 0 bodyGold [stuGold]).2.2.mailBatches = 1 ∧
    (findOne (webhookHandler extAllOk 0 bodyGold [stuGold]).2.1 1).map
      (fun t => t.payment_status) = some .completed ∧
    ∀ n, (webhookIterate extAllOk 0 bodyGold [stuGold] n).2.grants.length = n :=
  webhook_no_idempotency_guard extAllOk 0 "pay_g" "card" 99900 "NAC25 order" 1
    [stuGold] stuGold addonGold 42 "OK" (by decide) (by decide) rfl (by decide)
    rfl (by decide) rfl rfl (by decide)

/-! ## C9 -/

/-- C9 (amended): once authentication passes, a request whose body still has
the `payload.payment.entity` path and a `description` is answered with a
success no-op when the event/description test fails, and an authenticated
NAC25 event whose correlation id resolves to no registration is likewise a
success no-op; but a body missing those fields is not handled gracefully —
see the counterexample, where the caught TypeError is re-raised via
`ctx.throw` with the status defaulting to 200. -/
theorem webhook_noop_on_nonmatching_events (ext : ExtWorld) (now : Nat)
    (ev pid mth : String) (amt : Int) (desc : String)
    (ntsOpt : Option WebhookNotes) (store : Store) :
    (¬(ev = "payment.captured" ∧ strIncludes desc "NAC25" = true) →
      webhookHandler ext now ⟨ev, some ⟨some ⟨some ⟨pid, mth, amt, some desc, ntsOpt⟩⟩⟩⟩ store =
        (.success "Invalid payment description", store, {})) ∧
    (∀ nts, ev = "payment.captured" → strIncludes desc "NAC25" = true →
      ntsOpt = some nts → nts.student_document_id.bind (findOne store) = none →
      webhookHandler ext now ⟨ev, some ⟨some ⟨some ⟨pid, mth, amt, some desc, ntsOpt⟩⟩⟩⟩ store =
        (.success "Webhook processed successfully", store, {})) := by
  constructor
  · intro h
    by_cases hev : ev = "payment.captured"
    · have hinc : strIncludes desc "NAC25" = false := by
        cases hstr : strIncludes desc "NAC25" with
        | true => exact absurd ⟨hev, hstr⟩ h
        | false => rfl
      simp [webhookHandler, hev, hinc]
    · simp [webhookHandler, hev]
  · intro nts hev hinc hnts hfind
    subst hev
    subst hnts
    simp [webhookHandler, hinc, hfind]

/-- C9 witness: the amended theorem applied to a non-captured event (success
no-op) and to an authenticated NAC25 event whose correlation id matches no
registration (success no-op). -/
theorem webhook_noop_on_nonmatching_events_witness :
    webhookHandler extAllOk 1
        ⟨"order.paid", some ⟨some ⟨some ⟨"p1", "card", 10, some "x", none⟩⟩⟩⟩ [] =
      (.success "Invalid payment description", [], {}) ∧
    webhookHandler extAllOk 1
        ⟨"payment.captured",
         some ⟨some ⟨some ⟨"p1", "card", 10, some "NAC25", some ⟨some 9⟩⟩⟩⟩⟩ [] =
      (.success "Webhook processed successfully", [], {}) :=
  ⟨(webhook_noop_on_nonmatching_events extAllOk 1 "order.paid" "p1" "card" 10 "x"
      none []).1 (by decide),
   (webhook_noop_on_nonmatching_events extAllOk 1 "payment.captured" "p1" "card" 10
      "NAC25" (some ⟨some 9⟩) []).2 ⟨some 9⟩ rfl (by decide) rfl rfl⟩

/-- A body matching the spec's documented event shape — `payment.captured`
with entity fields and notes, but no `description` property. -/
def bodySpecShape : WebhookBody :=
  ⟨"payment.captured",
   some ⟨some ⟨some ⟨"pay_s", "card", 50000, none, some ⟨some 1⟩⟩⟩⟩⟩

/-- C9 counterexample: the claim says the handler never errors or crashes on
an unrecognized event shape once authentication passes.  An authenticated
`payment.captured` body of exactly the spec's documented shape (which has no
`description` field) makes `payment.description.includes('NAC25')` throw a
TypeError; the catch-all re-raises it via `ctx.throw(err.status || 200, ..)`
— an error response, not the success acknowledgment.  A body without
`payload` behaves the same. -/
theorem webhook_shape_crash_cex :
    (webhookHandler extAllOk 0 bodySpecShape []).1 = .thrown 200 "TypeError" ∧
    (webhookHandler extAllOk 0 bodySpecShape []).1 ≠
      .success "Webhook processed successfully" ∧
    (webhookHandler extAllOk 0 bodySpecShape []).1 ≠
      .success "Invalid payment description" ∧
    (webhookHandler extAllOk 0 ⟨"payment.captured", none⟩ []).1 =
      .thrown 200 "TypeError" := by
  refine ⟨by decide, by decide, by decide, by decide⟩

/-! ## C8 -/

/-- Structure of the bulk row loop: successes and failures partition the
rows, each recorded error is backed by a row, carries that row's number
(`index + 2`, the 1-indexed position counting the header line) and the row's
email (or "N/A" for a missing email). -/
theorem bulkLoop_spec (ext : Nat → RowExt) (now : Nat) :
    ∀ (rows : List Row) (i : Nat) (store : Store),
      (bulkLoop ext now i store rows).2.1 + (bulkLoop ext now i store rows).2.2.1 =
        rows.length ∧
      (bulkLoop ext now i store rows).2.2.2.length =
        (bulkLoop ext now i store rows).2.2.1 ∧
      ∀ e ∈ (bulkLoop ext now i store rows).2.2.2, ∃ j row,
        rows.get? j = some row ∧ e.row = i + j + 2 ∧
        e.email = (if row.email = "" then "N/A" else row.email) := by
  intro rows
  induction rows with
  | nil =>
    intro i store
    refine ⟨rfl, rfl, ?_⟩
    intro e he
    cases he
  | cons row rest ih =>
    intro i store
    cases hpr : processRow (ext i) now store row with
    | ok store1 =>
      have hr := ih (i + 1) store1
      simp only [bulkLoop, hpr]
      refine ⟨by have := hr.1; simp [List.length_cons]; omega, hr.2.1, ?_⟩
      intro e he
      obtain ⟨j, row2, h1, h2, h3⟩ := hr.2.2 e he
      refine ⟨j + 1, row2, by simpa using h1, by omega, h3⟩
    | error msg =>
      have hr := ih (i + 1) store
      simp only [bulkLoop, hpr]
      refine ⟨by have := hr.1; simp [List.length_cons]; omega, by simp [hr.2.1], ?_⟩
      intro e he
      rcases List.mem_cons.mp he with he0 | heRest
      · subst he0
        exact ⟨0, row, rfl, rfl, rfl⟩
      · obtain ⟨j, row2, h1, h2, h3⟩ := hr.2.2 e heRest
        refine ⟨j + 1, row2, by simpa using h1, by omega, h3⟩

/-- C8: for any parsed rows and any per-row outcomes of the external calls,
the bulk result reports `total = n`, `successful + failed = n`, one error
entry per failed row, and each error entry is backed by a row whose number it
carries as `index + 2` (1-indexed plus the header line), together with that
row's email (or "N/A" when the email is missing). -/
theorem bulk_row_isolation (ext : Nat → RowExt) (now : Nat) (store : Store)
    (rows : List Row) :
    (bulkUpload ext now store rows).1.total = rows.length ∧
    (bulkUpload ext now store rows).1.successful +
      (bulkUpload ext now store rows).1.failed = rows.length ∧
    (bulkUpload ext now store rows).1.errors.length =
      (bulkUpload ext now store rows).1.failed ∧
    ∀ e ∈ (bulkUpload ext now store rows).1.errors, ∃ j row,
      rows.get? j = some row ∧ e.row = j + 2 ∧
      e.email = (if row.email = "" then "N/A" else row.email) := by
  have h := bulkLoop_spec ext now rows 0 store
  refine ⟨rfl, h.1, h.2.1, ?_⟩
  intro e he
  obtain ⟨j, row, h1, h2, h3⟩ := h.2.2 e he
  exact ⟨j, row, h1, by omega, h3⟩

/-- A valid bulk row (no add-on) with the given email. -/
def rowN (e : String) : Row :=
  { name := "N", email := e, phone := "9", school := "S", grade := "5",
    «section» := "A", payment_id := "pay_1", is_overseas := "false",
    addon_id := "", addon_title := "", dob := "", city := "" }

/-- A bulk row missing its required `email` field. -/
def rowNoEmail : Row := { rowN "x@x.com" with email := "" }

/-- Per-row oracle in which every external call succeeds. -/
def rextOk : Nat → RowExt := fun i =>
  ⟨100 + i, .ok (some 5), .ok (), .ok (some 5), .ok ()⟩

/-- Five rows of which the third is missing `email`. -/
def rows5 : List Row :=
  [rowN "a@x.com", rowN "b@x.com", rowNoEmail, rowN "c@x.com", rowN "d@x.com"]

/-- C8 witness: the theorem applied to 5 rows where row 3 (reported line 4 =
1-indexed + header) is missing `email`: total 5, successful 4, failed 1, one
error entry for that row. -/
theorem bulk_row_isolation_witness :
    (bulkUpload rextOk 0 [] rows5).1 =
      ⟨5, 4, 1, [⟨4, "N/A", "Missing required fields in row"⟩]⟩ ∧
    (∃ j row, rows5.get? j = some row ∧ (4 : Nat) = j + 2 ∧
      ("N/A" : String) = (if row.email = "" then "N/A" else row.email)) := by
  constructor
  · decide
  · obtain ⟨j, row, h1, h2, h3⟩ := (bulk_row_isolation rextOk 0 [] rows5).2.2.2
      ⟨4, "N/A", "Missing required fields in row"⟩ (by decide)
    exact ⟨j, row, h1, h2, h3⟩

end NacBe
